import Mathlib

/-!
Verification development for the vscode-mutagen-plugin repository.

The definitions below are shallow embeddings of the TypeScript sources:
`CommandManager` (conflict resolution, batch accept, profile restore,
remote-path normalization), `SessionsTreeDataProvider` (snapshot change
detection), `ConnectionProfileService` (profile store),
`MutagenService` (endpoint matching) and `StatusBarManager` (rate
estimation).  JavaScript strings are modelled by Lean `String`
(code-point order stands in for UTF-16 code-unit order), JavaScript
numbers that hold byte counters or timestamps by `Rat`/`Int`/`Nat`, and
`JSON.stringify` by an explicit serializer.  Asynchronous engine and
filesystem effects are modelled by explicit traces of emitted
operations.
-/

namespace Mutagen

/-! ### JSON-ish values and serialization helpers

Conflict change entries (`change.old` / `change.new`) arrive from
`JSON.parse` of the engine output, so the code treats them as arbitrary
values: `serializeEntry` in `CommandManager.buildConflictSignature`
discriminates falsy values, non-objects and objects.  `JEntry` models
that domain; content-descriptor objects are modelled as flat
string-to-string field lists, which is the shape the engine emits. -/

/-! ### Character-list string primitives

Kernel-reducible equivalents of the JavaScript string operations used by
the sources (`includes`, `startsWith`, `endsWith`, `substring`, `trim`,
`split`, single-character `replace`). -/

def strContains (s : String) (c : Char) : Bool :=
  s.data.any (fun x => x == c)

def strStartsWith (s p : String) : Bool :=
  p.data.isPrefixOf s.data

def strEndsWith (s p : String) : Bool :=
  p.data.isSuffixOf s.data

def strTakeWhile (s : String) (p : Char → Bool) : String :=
  String.mk (s.data.takeWhile p)

def strTake (s : String) (n : Nat) : String :=
  String.mk (s.data.take n)

/-- JavaScript `trim()` (Unicode whitespace at both ends). -/
def jsTrim (s : String) : String :=
  String.mk (((s.data.dropWhile Char.isWhitespace).reverse.dropWhile Char.isWhitespace).reverse)

def splitOnCharAux (c : Char) : List Char → List Char → List String
  | [], acc => [String.mk acc.reverse]
  | x :: xs, acc =>
    if x == c then String.mk acc.reverse :: splitOnCharAux c xs []
    else splitOnCharAux c xs (x :: acc)

/-- `split` on a single-character separator. -/
def splitOnChar (s : String) (c : Char) : List String :=
  splitOnCharAux c s.data []

/-- Single-character global `replace`. -/
def replaceChar (s : String) (a b : Char) : String :=
  String.mk (s.data.map (fun ch => if ch == a then b else ch))

inductive JEntry where
  | null
  | bool (b : Bool)
  | num (n : Int)
  | str (s : String)
  | obj (fields : List (String × String))
deriving DecidableEq, Repr

/-- JavaScript truthiness of a `JEntry` (`!entry` is its negation). -/
def JEntry.truthy : JEntry → Bool
  | .null => false
  | .bool b => b
  | .num n => n != 0
  | .str s => s != ""
  | .obj _ => true

/-- `String(entry)` for the non-object branches. -/
def JEntry.jsToString : JEntry → String
  | .null => "null"
  | .bool b => if b then "true" else "false"
  | .num n => toString n
  | .str s => s
  | .obj _ => "[object Object]"

/-- One escaped character of a JSON string literal (the common escapes;
other control characters do not occur in the data we model). -/
def jsonEscapeChar (c : Char) : String :=
  if c = '"' then "\\\""
  else if c = '\\' then "\\\\"
  else if c = '\n' then "\\n"
  else if c = '\r' then "\\r"
  else if c = '\t' then "\\t"
  else String.singleton c

def jsonEscape (s : String) : String :=
  String.join (s.data.map jsonEscapeChar)

/-- `JSON.stringify` of a string. -/
def jsonStr (s : String) : String :=
  "\"" ++ jsonEscape s ++ "\""

/-- `JSON.stringify` of a flat object, fields in the given order. -/
def jsonStringifyObj (fields : List (String × String)) : String :=
  "\x7b" ++ String.intercalate "," (fields.map (fun kv => jsonStr kv.1 ++ ":" ++ jsonStr kv.2)) ++ "\x7d"

/-- `JSON.stringify` of a `JEntry` (insertion order of object fields). -/
def JEntry.jsonStringify : JEntry → String
  | .null => "null"
  | .bool b => if b then "true" else "false"
  | .num n => toString n
  | .str s => jsonStr s
  | .obj fields => jsonStringifyObj fields

/-- `JSON.stringify` of an array of (already serialized) strings. -/
def jsonArr (items : List String) : String :=
  "[" ++ String.intercalate "," (items.map jsonStr) ++ "]"

/-- JavaScript `Array.prototype.sort()` on strings (lexicographic). -/
def sortStrings (l : List String) : List String :=
  List.insertionSort (fun a b => a ≤ b) l

/-- `Object.keys(map).sort()` followed by rebuilding the object:
sort the fields by key. -/
def sortFieldsByKey (fields : List (String × String)) : List (String × String) :=
  List.insertionSort (fun a b => a.1 ≤ b.1) fields

/-! ### Conflict model and signatures (`CommandManager`) -/

structure ConflictChange where
  path : String
  old : JEntry
  new : JEntry
deriving DecidableEq, Repr

structure Conflict where
  root : String
  alphaChanges : List ConflictChange
  betaChanges : List ConflictChange
deriving DecidableEq, Repr

/-- `serializeEntry` inside `CommandManager.buildConflictSignature`:
falsy values serialize to `'null'`, non-objects via `String(entry)`,
objects via `JSON.stringify` with sorted keys. -/
def serializeEntry (e : JEntry) : String :=
  if e.truthy = false then "null"
  else
    match e with
    | .obj fields => jsonStringifyObj (sortFieldsByKey fields)
    | other => other.jsToString

/-- `serializeChanges` inside `CommandManager.buildConflictSignature`:
map each change to `path|old|new` and sort the resulting strings. -/
def serializeChanges (changes : List ConflictChange) : List String :=
  sortStrings (changes.map (fun ch => ch.path ++ "|" ++ serializeEntry ch.old ++ "|" ++ serializeEntry ch.new))

/-- `CommandManager.buildConflictSignature`: `JSON.stringify` of the
payload `\x7broot, alphaChanges, betaChanges\x7d`. -/
def buildConflictSignature (c : Conflict) : String :=
  "\x7b\"root\":" ++ jsonStr c.root
    ++ ",\"alphaChanges\":" ++ jsonArr (serializeChanges c.alphaChanges)
    ++ ",\"betaChanges\":" ++ jsonArr (serializeChanges c.betaChanges) ++ "\x7d"

/-! ### Handled-conflict records and the batch accept-all protocol
(`CommandManager.splitHandledConflicts`, `CommandManager.acceptAllConflicts`) -/

inductive ConflictDirection where
  | localDir
  | remoteDir
deriving DecidableEq, Repr

/-- `HandledConflictRecord` from `commandManager`: `\x7bdirection, signature, at\x7d`. -/
structure HandledConflictRecord where
  direction : ConflictDirection
  signature : String
  atMs : Nat
deriving DecidableEq, Repr

/-- One session's `handledConflictsBySession` map, keyed by conflict root. -/
abbrev HandledMap := List (String × HandledConflictRecord)

/-- The exclusion test inside the `splitHandledConflicts` loop: a handled
record exists for the conflict's root and its stored signature equals the
conflict's current signature. -/
def isHandledExcluded (handled : HandledMap) (c : Conflict) : Bool :=
  match handled.lookup c.root with
  | some record => record.signature == buildConflictSignature c
  | none => false

/-- The `for (const conflict of conflicts)` loop of
`splitHandledConflicts`: partition into pending (order preserved) and an
excluded count. -/
def splitPending (handled : HandledMap) : List Conflict → List Conflict × Nat
  | [] => ([], 0)
  | c :: rest =>
    let acc := splitPending handled rest
    if isHandledExcluded handled c then (acc.1, acc.2 + 1) else (c :: acc.1, acc.2)

/-- `CommandManager.splitHandledConflicts` (the map for the session is
passed directly; the `!handled || handled.size === 0` early return is the
`isEmpty` branch). -/
def splitHandledConflicts (handled : HandledMap) (conflicts : List Conflict) :
    List Conflict × Nat :=
  if handled.isEmpty then (conflicts, 0) else splitPending handled conflicts

/-- Engine-mutating operations emitted by the batch accept-all command:
per-conflict direction application, `resetSession`, `flushSession`. -/
inductive EngineOp where
  | applyConflict (root : String) (direction : ConflictDirection)
  | resetSession
  | flushSession
deriving DecidableEq, Repr

structure AcceptAllOutcome where
  trace : List EngineOp
  excludedCount : Nat
  attemptedCount : Nat
  successCount : Nat
  failedCount : Nat
  converged : Bool
deriving DecidableEq, Repr

/-- `CommandManager.acceptAllConflicts`, with the asynchronous effects
made explicit: `applyOk c` tells whether `applyConflictDirection` for
conflict `c` succeeds or throws, `confirm` is the user's answer to the
modal dialog, `resetOk`/`flushOk` tell whether the engine `reset`/`flush`
calls succeed.  The returned trace lists the engine-mutating operations
in the order the code awaits them. -/
def acceptAllConflicts (conflicts : List Conflict) (handled : HandledMap)
    (confirm : Bool) (applyOk : Conflict → Bool) (resetOk flushOk : Bool)
    (direction : ConflictDirection) : AcceptAllOutcome :=
  if conflicts.isEmpty then
    { trace := [], excludedCount := 0, attemptedCount := 0,
      successCount := 0, failedCount := 0, converged := false }
  else
    let exclusion := splitHandledConflicts handled conflicts
    if exclusion.1.isEmpty then
      { trace := [], excludedCount := exclusion.2, attemptedCount := 0,
        successCount := 0, failedCount := 0, converged := false }
    else if !confirm then
      { trace := [], excludedCount := exclusion.2, attemptedCount := 0,
        successCount := 0, failedCount := 0, converged := false }
    else
      let pending := exclusion.1
      let attemptedCount := pending.length
      let successCount := (pending.filter (fun c => applyOk c)).length
      let failedCount := (pending.filter (fun c => !applyOk c)).length
      let applyTrace := pending.map (fun c => EngineOp.applyConflict c.root direction)
      let allSucceeded := decide (0 < attemptedCount) && (failedCount == 0)
      let convergenceTrace :=
        if allSucceeded then
          EngineOp.resetSession :: (if resetOk then [EngineOp.flushSession] else [])
        else []
      { trace := applyTrace ++ convergenceTrace,
        excludedCount := exclusion.2,
        attemptedCount := attemptedCount,
        successCount := successCount,
        failedCount := failedCount,
        converged := allSucceeded && resetOk && flushOk }

/-! ### Session data model (`models/session.ts`)

Only the fields consumed by the embedded functions are modelled. -/

inductive SessionStatus where
  | disconnected
  | haltedOnRootEmptied
  | haltedOnRootDeletion
  | haltedOnRootTypeChange
  | connectingAlpha
  | connectingBeta
  | watching
  | scanning
  | waitingForRescan
  | reconciling
  | stagingAlpha
  | stagingBeta
  | transitioning
  | saving
deriving DecidableEq, Repr

inductive EndpointProtocol where
  | localP
  | ssh
  | docker
deriving DecidableEq, Repr

/-- `StagingProgress`; the numeric fields are `Option` because the code
guards every read with `typeof x === 'number' && Number.isFinite(x)`
(the engine may omit them). -/
structure StagingProgress where
  path : String
  receivedSize : Option Rat
  totalSize : Option Rat
  expectedSize : Option Rat
deriving DecidableEq, Repr

structure Endpoint where
  protocol : EndpointProtocol
  host : Option String
  user : Option String
  path : String
  connected : Bool
  stagingProgress : Option StagingProgress
deriving DecidableEq, Repr

structure Session where
  identifier : String
  name : String
  paused : Bool
  status : SessionStatus
  lastError : Option String
  successfulCycles : Nat
  conflicts : Option (List Conflict)
  alpha : Endpoint
  beta : Endpoint
  stagingProgress : Option StagingProgress
deriving DecidableEq, Repr

/-! ### Snapshot change detection (`SessionsTreeDataProvider`) -/

/-- Per-change serialization inside
`SessionsTreeDataProvider.getConflictFingerprint`:
`change.old ? JSON.stringify(change.old) : 'null'`. -/
def fingerprintEntry (e : JEntry) : String :=
  if e.truthy then e.jsonStringify else "null"

def fingerprintChanges (changes : List ConflictChange) : List String :=
  sortStrings (changes.map
    (fun ch => ch.path ++ ":" ++ fingerprintEntry ch.old ++ ":" ++ fingerprintEntry ch.new))

/-- The `JSON.stringify(\x7broot, alphaChanges, betaChanges\x7d)` for one
conflict inside `getConflictFingerprint`. -/
def conflictFingerprintOne (c : Conflict) : String :=
  "\x7b\"root\":" ++ jsonStr c.root
    ++ ",\"alphaChanges\":" ++ jsonArr (fingerprintChanges c.alphaChanges)
    ++ ",\"betaChanges\":" ++ jsonArr (fingerprintChanges c.betaChanges) ++ "\x7d"

/-- `SessionsTreeDataProvider.getConflictFingerprint`: serialize each
conflict, sort, join with `|`. -/
def getConflictFingerprint (s : Session) : String :=
  String.intercalate "|" (sortStrings ((s.conflicts.getD []).map conflictFingerprintOne))

/-- The staging received-bytes counter of `sessionChanged`:
`session.stagingProgress?.receivedSize ?? alpha... ?? beta... ?? 0`. -/
def sessionStagingReceived (s : Session) : Rat :=
  (((s.stagingProgress.bind (fun p => p.receivedSize)).orElse
      (fun _ => s.alpha.stagingProgress.bind (fun p => p.receivedSize))).orElse
      (fun _ => s.beta.stagingProgress.bind (fun p => p.receivedSize))).getD 0

/-- `SessionsTreeDataProvider.sessionChanged`. -/
def sessionChanged (oldS newS : Session) : Bool :=
  (oldS.status != newS.status)
    || (oldS.paused != newS.paused)
    || (oldS.successfulCycles != newS.successfulCycles)
    || (oldS.lastError != newS.lastError)
    || (oldS.alpha.connected != newS.alpha.connected)
    || (oldS.beta.connected != newS.beta.connected)
    || (getConflictFingerprint oldS != getConflictFingerprint newS)
    || (sessionStagingReceived oldS != sessionStagingReceived newS)

/-- Lookup in the provider's `sessionMap` (a JS `Map` filled by iterating
the previous snapshot, so a duplicated identifier keeps the last
occurrence). -/
def sessionMapLookup (sessions : List Session) (id : String) : Option Session :=
  sessions.reverse.find? (fun s => s.identifier == id)

/-- `SessionsTreeDataProvider.detectChanges` against the previous
snapshot `prev`. -/
def detectChanges (prev next : List Session) : Bool :=
  if next.length != prev.length then true
  else
    next.any (fun s =>
      match sessionMapLookup prev s.identifier with
      | none => true
      | some oldS => sessionChanged oldS s)

/-! ### Directional rate estimation (`StatusBarManager`) -/

inductive TransferDirection where
  | upload
  | download
deriving DecidableEq, Repr

structure DirectionalRateState where
  lastReceivedSize : Rat
  lastTimestamp : Rat
  uploadRate : Rat
  downloadRate : Rat
  isLocalAlpha : Bool
  hasSample : Bool
deriving DecidableEq, Repr

/-- `StatusBarManager.isLocalAlpha`. -/
def isLocalAlpha (s : Session) : Bool :=
  if s.alpha.protocol == EndpointProtocol.localP && s.beta.protocol != EndpointProtocol.localP then
    true
  else if s.beta.protocol == EndpointProtocol.localP && s.alpha.protocol != EndpointProtocol.localP then
    false
  else
    s.alpha.protocol == EndpointProtocol.localP

/-- `StatusBarManager.getSessionStagingProgress`. -/
def getSessionStagingProgress (s : Session) : Option StagingProgress :=
  match s.status with
  | .stagingAlpha => s.alpha.stagingProgress.orElse (fun _ => s.stagingProgress)
  | .stagingBeta => s.beta.stagingProgress.orElse (fun _ => s.stagingProgress)
  | _ =>
    (s.stagingProgress.orElse (fun _ => s.alpha.stagingProgress)).orElse
      (fun _ => s.beta.stagingProgress)

/-- `StatusBarManager.getStagingReceivedSize` (`none` models the
non-number / non-finite guard). -/
def getStagingReceivedSize (s : Session) : Option Rat :=
  (getSessionStagingProgress s).bind (fun p => p.receivedSize)

/-- `StatusBarManager.resolveTransferDirection`. -/
def resolveTransferDirection (s : Session) (isLA : Bool) : Option TransferDirection :=
  if s.status == SessionStatus.stagingAlpha then
    some (if isLA then TransferDirection.upload else TransferDirection.download)
  else if s.status == SessionStatus.stagingBeta then
    some (if isLA then TransferDirection.download else TransferDirection.upload)
  else if s.alpha.stagingProgress.isSome && !s.beta.stagingProgress.isSome then
    some (if isLA then TransferDirection.upload else TransferDirection.download)
  else if s.beta.stagingProgress.isSome && !s.alpha.stagingProgress.isSome then
    some (if isLA then TransferDirection.download else TransferDirection.upload)
  else
    none

/-- `StatusBarManager.RATE_SAMPLE_INTERVAL_MS`. -/
def RATE_SAMPLE_INTERVAL_MS : Rat := 500

/-- `StatusBarManager.createRateState` (`Date.now()` passed as `now`). -/
def createRateState (s : Session) (now : Rat) : DirectionalRateState :=
  let receivedSize := (getStagingReceivedSize s).getD 0
  { lastReceivedSize := receivedSize, lastTimestamp := now,
    uploadRate := 0, downloadRate := 0,
    isLocalAlpha := isLocalAlpha s, hasSample := receivedSize > 0 }

/-- `StatusBarManager.updateWorkspaceRateFromMonitor`: one monitor sample
for a session, updating that session's rate state (`stateOpt` is the
`workspaceRates.get(...) ?? createRateState(...)` lookup). -/
def updateWorkspaceRateFromMonitor (stateOpt : Option DirectionalRateState)
    (s : Session) (now : Rat) : DirectionalRateState :=
  let rs0 := stateOpt.getD (createRateState s now)
  let rs := { rs0 with isLocalAlpha := isLocalAlpha s }
  match getStagingReceivedSize s with
  | none =>
    { rs with uploadRate := 0, downloadRate := 0, lastTimestamp := now }
  | some currentReceivedSize =>
    match resolveTransferDirection s rs.isLocalAlpha with
    | none =>
      { rs with uploadRate := 0, downloadRate := 0,
                lastReceivedSize := currentReceivedSize, lastTimestamp := now,
                hasSample := true }
    | some direction =>
      if !rs.hasSample then
        { rs with lastReceivedSize := currentReceivedSize, lastTimestamp := now,
                  uploadRate := 0, downloadRate := 0, hasSample := true }
      else
        let elapsedMilliseconds := now - rs.lastTimestamp
        if elapsedMilliseconds < RATE_SAMPLE_INTERVAL_MS then rs
        else
          let elapsedSeconds := elapsedMilliseconds / 1000
          let transferredBytes := currentReceivedSize - rs.lastReceivedSize
          let currentRate :=
            if elapsedSeconds > 0 then max 0 (transferredBytes / elapsedSeconds) else 0
          { rs with
              uploadRate := if direction == TransferDirection.upload then currentRate else 0,
              downloadRate := if direction == TransferDirection.download then currentRate else 0,
              lastReceivedSize := currentReceivedSize, lastTimestamp := now,
              hasSample := true }

/-! ### Conflict path resolution and direction application
(`CommandManager.resolveLocalConflictPath` and friends)

Absolute POSIX paths are modelled as their list of segments under the
filesystem root; `path.resolve` is the fold below (a `..` at the root
stays at the root, exactly as in Node).  Relative inputs would be
resolved against the process working directory, which is modelled as
the root. -/

/-- The segment-processing core of `path.resolve`: append the segments
to `base`, popping on `..` and skipping `.` and empty segments. -/
def resolveSegs (base : List String) : List String → List String
  | [] => base
  | seg :: rest =>
    if seg == ".." then resolveSegs base.dropLast rest
    else if seg == "." || seg == "" then resolveSegs base rest
    else resolveSegs (base ++ [seg]) rest

/-- `path.resolve(p)` for one path string. -/
def parseAbsolutePath (s : String) : List String :=
  resolveSegs [] (splitOnChar s '/')

/-- `CommandManager.splitConflictRoot`: convert backslashes, split on
`/`, drop empty and `.` segments. -/
def splitConflictRoot (conflictRoot : String) : List String :=
  (splitOnChar (replaceChar conflictRoot '\\' '/') '/').filter
    (fun segment => decide (0 < segment.length) && segment != ".")

/-- Length of the longest common leading segment run (the common prefix
`path.relative` cancels). -/
def commonLen : List String → List String → Nat
  | a :: as, b :: bs => if a == b then commonLen as bs + 1 else 0
  | _, _ => 0

/-- The segments of `path.relative(base, target)` for two absolute
segment lists. -/
def relativeSegs (base target : List String) : List String :=
  List.replicate (base.length - commonLen base target) ".." ++ target.drop (commonLen base target)

/-- First segment starts with `..` — for segment lists with non-empty
segments this is exactly `path.relative(...).startsWith('..')` on the
joined string. -/
def startsWithDotDot : List String → Bool
  | [] => false
  | h :: _ => strStartsWith h ".."

/-- `CommandManager.isSubPath` / `isSubPathPosix`:
`relative === '' || (!relative.startsWith('..') && !isAbsolute(relative))`
(the relative path of two absolute paths is never absolute). -/
def isSubPath (base target : List String) : Bool :=
  (relativeSegs base target).isEmpty || !startsWithDotDot (relativeSegs base target)

/-- `CommandManager.resolveLocalConflictPath`. -/
def resolveLocalConflictPath (localRoot : String) (conflictRoot : String) :
    Except String (List String) :=
  let basePath := parseAbsolutePath localRoot
  let targetPath := resolveSegs basePath (splitConflictRoot conflictRoot)
  if isSubPath basePath targetPath then Except.ok targetPath
  else Except.error ("Conflict path escapes local root: " ++ conflictRoot)

/-- `CommandManager.resolveRemoteConflictPath` (the POSIX twin). -/
def resolveRemoteConflictPath (remoteRoot : String) (conflictRoot : String) :
    Except String (List String) :=
  let basePath := parseAbsolutePath remoteRoot
  let targetPath := resolveSegs basePath (splitConflictRoot conflictRoot)
  if isSubPath basePath targetPath then Except.ok targetPath
  else Except.error ("Conflict path escapes remote root: " ++ conflictRoot)

/-- `CommandManager.resolveEndpointConflictPath`. -/
def resolveEndpointConflictPath (ep : Endpoint) (conflictRoot : String) :
    Except String (List String) :=
  if ep.protocol == EndpointProtocol.localP then
    resolveLocalConflictPath ep.path conflictRoot
  else
    resolveRemoteConflictPath ep.path conflictRoot

/-- `CommandManager.getConflictEndpoints`: the local endpoint and its
peer, or `none` for a foreign session. -/
def getConflictEndpoints (s : Session) : Option (Endpoint × Endpoint) :=
  if s.alpha.protocol == EndpointProtocol.localP then some (s.alpha, s.beta)
  else if s.beta.protocol == EndpointProtocol.localP then some (s.beta, s.alpha)
  else none

/-- State of the source path probed before copying (`getLocalPathState`
/ `getRemotePathState`). -/
inductive PathState where
  | file
  | directory
  | missing
deriving DecidableEq, Repr

/-- Filesystem / remote-shell operations emitted while applying a
conflict direction. -/
inductive FsOp where
  | rmLocal (dest : List String)
  | mkdirLocal (dir : List String)
  | copyLocal (src dest : List String) (recursive : Bool)
  | sshRemove (target : List String)
  | sshPrepare (target : List String)
  | scpUpload (src dest : List String) (recursive : Bool)
  | scpDownload (src dest : List String) (recursive : Bool)
deriving DecidableEq, Repr

/-- `CommandManager.copyOrDeleteLocalPath` as the list of filesystem
operations it performs, given the probed source state. -/
def copyOrDeleteLocalPath (src dest : List String) (srcState : PathState) : List FsOp :=
  if src == dest then []
  else
    match srcState with
    | .missing => [FsOp.rmLocal dest]
    | .directory => [FsOp.rmLocal dest, FsOp.mkdirLocal dest.dropLast, FsOp.copyLocal src dest true]
    | .file => [FsOp.rmLocal dest, FsOp.mkdirLocal dest.dropLast, FsOp.copyLocal src dest false]

/-- `CommandManager.applyLocalToSsh`. -/
def applyLocalToSshOps (src dest : List String) (srcState : PathState) : List FsOp :=
  match srcState with
  | .missing => [FsOp.sshRemove dest]
  | .directory => [FsOp.sshPrepare dest, FsOp.scpUpload src dest true]
  | .file => [FsOp.sshPrepare dest, FsOp.scpUpload src dest false]

/-- `CommandManager.applySshToLocal`. -/
def applySshToLocalOps (src dest : List String) (srcState : PathState) : List FsOp :=
  match srcState with
  | .missing => [FsOp.rmLocal dest]
  | .directory => [FsOp.rmLocal dest, FsOp.mkdirLocal dest.dropLast, FsOp.scpDownload src dest true]
  | .file => [FsOp.rmLocal dest, FsOp.mkdirLocal dest.dropLast, FsOp.scpDownload src dest false]

/-- `CommandManager.applyLocalToEndpoint`. -/
def applyLocalToEndpoint (src : List String) (remoteEp : Endpoint) (dest : List String)
    (srcState : PathState) : Except String (List FsOp) :=
  if remoteEp.protocol == EndpointProtocol.localP then
    Except.ok (copyOrDeleteLocalPath src dest srcState)
  else if remoteEp.protocol == EndpointProtocol.ssh then
    Except.ok (applyLocalToSshOps src dest srcState)
  else
    Except.error "Docker endpoints are not supported for auto-apply. Use copy command fallback."

/-- `CommandManager.applyEndpointToLocal`. -/
def applyEndpointToLocal (remoteEp : Endpoint) (src dest : List String)
    (srcState : PathState) : Except String (List FsOp) :=
  if remoteEp.protocol == EndpointProtocol.localP then
    Except.ok (copyOrDeleteLocalPath src dest srcState)
  else if remoteEp.protocol == EndpointProtocol.ssh then
    Except.ok (applySshToLocalOps src dest srcState)
  else
    Except.error "Docker endpoints are not supported for auto-apply. Use copy command fallback."

/-- `CommandManager.applyConflictDirection`: resolve both paths first
(throwing a path-escape error performs no operation), then emit the
copy/delete operations for the chosen direction.  `srcState` is the
probed state of the source side. -/
def applyConflictDirection (s : Session) (c : Conflict) (direction : ConflictDirection)
    (srcState : PathState) : Except String (List FsOp) :=
  match getConflictEndpoints s with
  | none => Except.error "Unable to find a local endpoint for this session"
  | some (localEp, remoteEp) => do
    let localPath ← resolveLocalConflictPath localEp.path c.root
    let remotePath ← resolveEndpointConflictPath remoteEp c.root
    if direction == ConflictDirection.localDir then
      applyLocalToEndpoint localPath remoteEp remotePath srcState
    else
      applyEndpointToLocal remoteEp remotePath localPath srcState

/-! ### Connection profile store (`ConnectionProfileService`) -/

inductive SyncMode where
  | twoWaySafe
  | twoWayResolved
  | oneWaySafe
  | oneWayReplica
deriving DecidableEq, Repr

structure ConnectionProfile where
  id : String
  name : String
  localPath : String
  remotePath : String
  mode : Option SyncMode
  ignoreVcs : Option Bool
  ignorePaths : List String
  workspaceFolder : String
  lastSessionIdentifier : Option String
  updatedAt : String
deriving DecidableEq, Repr

structure UpsertConnectionProfileInput where
  name : String
  localPath : String
  remotePath : String
  mode : Option SyncMode
  ignoreVcs : Option Bool
  ignorePaths : Option (List String)
  workspaceFolder : String
  lastSessionIdentifier : Option String
deriving DecidableEq, Repr

/-- Arbitrary persisted JSON, the domain of `parseProfile`. -/
inductive JValue where
  | null
  | bool (b : Bool)
  | num (n : Int)
  | str (s : String)
  | arr (items : List JValue)
  | obj (fields : List (String × JValue))

/-- `ConnectionProfileService.normalizePath` = `path.resolve(rawPath)`. -/
def normalizePath (rawPath : String) : String :=
  "/" ++ String.intercalate "/" (parseAbsolutePath rawPath)

/-- `path.basename` of a normalized path. -/
def pathBasename (p : String) : String :=
  (parseAbsolutePath p).getLastD ""

/-- The JS `Set`-based dedup: keep the first occurrence of each string. -/
def dedupFirstAux (seen : List String) : List String → List String
  | [] => []
  | x :: xs =>
    if seen.contains x then dedupFirstAux seen xs
    else x :: dedupFirstAux (x :: seen) xs

def dedupFirst (l : List String) : List String :=
  dedupFirstAux [] l

/-- `ConnectionProfileService.normalizeIgnorePaths` on a present-or-
absent string list (the upsert input side, where the value is typed). -/
def normalizeIgnorePathsL (value : Option (List String)) : List String :=
  match value with
  | none => []
  | some items =>
    dedupFirst ((items.map (fun s => jsTrim s)).filter (fun s => decide (0 < s.length)))

/-- `ConnectionProfileService.normalizeIgnorePaths` on raw JSON (the
load side): non-arrays give `[]`, non-string entries are skipped. -/
def normalizeIgnorePathsJ (value : Option JValue) : List String :=
  match value with
  | some (.arr items) =>
    dedupFirst
      (((items.filterMap (fun it =>
          match it with
          | .str s => some s
          | _ => none)).map (fun s => jsTrim s)).filter (fun s => decide (0 < s.length)))
  | _ => []

/-- `ConnectionProfileService.parseMode`. -/
def parseMode (value : Option JValue) : Option SyncMode :=
  match value with
  | some (.str "two-way-safe") => some SyncMode.twoWaySafe
  | some (.str "two-way-resolved") => some SyncMode.twoWayResolved
  | some (.str "one-way-safe") => some SyncMode.oneWaySafe
  | some (.str "one-way-replica") => some SyncMode.oneWayReplica
  | _ => none

/-- The `typeof record.k === 'string' ? record.k : ''` reads of
`parseProfile`. -/
def getStrField (fields : List (String × JValue)) (key : String) : String :=
  match fields.lookup key with
  | some (.str s) => s
  | _ => ""

/-- `ConnectionProfileService.parseProfile`.  A JSON array also passes
the JS `typeof value === 'object'` test, but its property reads yield
`undefined` so every required field is `''` and it is dropped — the
non-`obj` catch-all gives the same result. -/
def parseProfile (value : JValue) : Option ConnectionProfile :=
  match value with
  | .obj fields =>
    let id := getStrField fields "id"
    let name := getStrField fields "name"
    let localPath := getStrField fields "localPath"
    let remotePath := getStrField fields "remotePath"
    let workspaceFolder := getStrField fields "workspaceFolder"
    let updatedAt := getStrField fields "updatedAt"
    if id == "" || name == "" || localPath == "" || remotePath == ""
        || workspaceFolder == "" || updatedAt == "" then
      none
    else
      some
        { id := id, name := name,
          localPath := normalizePath localPath,
          remotePath := remotePath,
          mode := parseMode (fields.lookup "mode"),
          ignoreVcs :=
            (match fields.lookup "ignoreVcs" with
             | some (.bool b) => some b
             | _ => none),
          ignorePaths := normalizeIgnorePathsJ (fields.lookup "ignorePaths"),
          workspaceFolder := normalizePath workspaceFolder,
          lastSessionIdentifier :=
            (match fields.lookup "lastSessionIdentifier" with
             | some (.str s) => some s
             | _ => none),
          updatedAt := updatedAt }
  | _ => none

/-- The `sort((a, b) => b.updatedAt.localeCompare(a.updatedAt))` of
`listProfiles` (locale comparison modelled by code-point order). -/
def sortByUpdatedAtDesc (ps : List ConnectionProfile) : List ConnectionProfile :=
  List.insertionSort (fun a b => b.updatedAt ≤ a.updatedAt) ps

/-- `ConnectionProfileService.listProfiles` on the raw backing value. -/
def listProfiles (raw : JValue) : List ConnectionProfile :=
  match raw with
  | .arr items => sortByUpdatedAtDesc (items.filterMap parseProfile)
  | _ => []

/-- `ConnectionProfileService.getDeduplicationKey`. -/
def getDeduplicationKey (workspaceFolder localPath remotePath : String) : String :=
  workspaceFolder ++ "::" ++ localPath ++ "::" ++ remotePath

/-- `ConnectionProfileService.upsertProfile` on an in-memory profile
list; `now` is the ISO timestamp and `freshId` the id `createProfileId`
would mint.  Returns the saved list and the resulting profile. -/
def upsertProfile (profiles : List ConnectionProfile)
    (input : UpsertConnectionProfileInput) (now freshId : String) :
    List ConnectionProfile × ConnectionProfile :=
  let nLocal := normalizePath input.localPath
  let nWf := normalizePath input.workspaceFolder
  let nIgnore := normalizeIgnorePathsL input.ignorePaths
  let profileKey := getDeduplicationKey nWf nLocal input.remotePath
  let existing := profiles.find? (fun p =>
    getDeduplicationKey p.workspaceFolder p.localPath p.remotePath == profileKey)
  let profile : ConnectionProfile :=
    { id := match existing with | some e => e.id | none => freshId,
      name := if jsTrim input.name != "" then jsTrim input.name else pathBasename nLocal,
      localPath := nLocal,
      remotePath := input.remotePath,
      mode := input.mode,
      ignoreVcs := input.ignoreVcs,
      ignorePaths := nIgnore,
      workspaceFolder := nWf,
      lastSessionIdentifier :=
        (match input.lastSessionIdentifier with
         | some sid => some sid
         | none => existing.bind (fun e => e.lastSessionIdentifier)),
      updatedAt := now }
  (profiles.filter (fun item => item.id != profile.id) ++ [profile], profile)

/-! ### Endpoint matching and profile restore (`MutagenService`,
`CommandManager.restoreConnectionProfile`) -/

/-- Substring after the last `@` (`substring(lastIndexOf('@') + 1)`). -/
def afterLastAt (s : String) : String :=
  (splitOnChar s '@').getLastD s

/-- `MutagenService.matchesRemotePath`. -/
def matchesRemotePath (ep : Endpoint) (remotePath : String) : Bool :=
  let normalized := jsTrim remotePath
  if normalized == "" then false
  else if ep.path == normalized then true
  else
    match ep.host with
    | none => false
    | some h =>
      let hostPath := h ++ ":" ++ ep.path
      if hostPath == normalized then true
      else
        let userHostPath :=
          match ep.user with
          | some u => u ++ "@" ++ h ++ ":" ++ ep.path
          | none => hostPath
        if userHostPath == normalized then true
        else if ep.protocol == EndpointProtocol.docker
            && ("docker://" ++ h ++ ep.path == normalized) then true
        else if strEndsWith normalized (":" ++ ep.path) then
          let hostSegment := strTake normalized (normalized.length - ep.path.length - 1)
          let normalizedHost :=
            if strContains hostSegment '@' then afterLastAt hostSegment else hostSegment
          normalizedHost == h
        else false

/-- `MutagenService.findSessionByIdentifier` against the live session
list (`mutagen sync list <identifier>`). -/
def findSessionByIdentifier (sessions : List Session) (id : String) : Option Session :=
  sessions.find? (fun s => s.identifier == id)

/-- `MutagenService.findSessionByEndpoints`. -/
def findSessionByEndpoints (sessions : List Session) (localPath remotePath : String) :
    Option Session :=
  sessions.find? (fun s =>
    let localEp := if s.alpha.protocol == EndpointProtocol.localP then s.alpha else s.beta
    let remoteEp := if s.alpha.protocol == EndpointProtocol.localP then s.beta else s.alpha
    localEp.path == localPath && matchesRemotePath remoteEp remotePath)

/-- The options `MutagenService.createSession` is called with on the
restore path. -/
structure CreateSessionOptions where
  name : Option String
  mode : Option SyncMode
  ignoreVcs : Option Bool
  ignorePaths : Option (List String)
deriving DecidableEq, Repr

/-- `mergeIgnorePatterns` from `utils/config`. -/
def mergeIgnorePatterns (groups : List (List String)) : List String :=
  dedupFirst ((groups.flatten.map (fun s => jsTrim s)).filter (fun s => decide (0 < s.length)))

/-- `CommandManager.buildCreateOptionsFromProfile`; `globalIgnorePaths`
is the configuration-sourced `getMergedGlobalIgnorePatterns` result. -/
def buildCreateOptionsFromProfile (profile : ConnectionProfile)
    (globalIgnorePaths : List String) : CreateSessionOptions :=
  let effectiveIgnorePaths := mergeIgnorePatterns [profile.ignorePaths, globalIgnorePaths]
  { name := if profile.name != "" then some profile.name else none,
    mode := some (profile.mode.getD SyncMode.twoWaySafe),
    ignoreVcs := some (profile.ignoreVcs.getD false),
    ignorePaths := if 0 < effectiveIgnorePaths.length then some effectiveIgnorePaths else none }

/-- Observable outcome of `CommandManager.restoreConnectionProfile`:
which session id is returned, whether a resume was issued, what
`createSession` was called with, and the id recorded back via
`updateLastSessionIdentifier`. -/
structure RestoreOutcome where
  returnedIdentifier : String
  resumedIdentifier : Option String
  created : Option (String × String × CreateSessionOptions)
  recordedIdentifier : String
deriving DecidableEq, Repr

/-- `CommandManager.restoreConnectionProfile` against the live session
list; `freshId` is the identifier the engine would mint for a created
session. -/
def restoreConnectionProfile (profile : ConnectionProfile) (sessions : List Session)
    (globalIgnorePaths : List String) (freshId : String) : RestoreOutcome :=
  let byId :=
    match profile.lastSessionIdentifier with
    | some lid => findSessionByIdentifier sessions lid
    | none => none
  let sessionFound :=
    match byId with
    | some s => some s
    | none => findSessionByEndpoints sessions profile.localPath profile.remotePath
  match sessionFound with
  | some s =>
    { returnedIdentifier := s.identifier,
      resumedIdentifier :=
        if s.paused || s.status == SessionStatus.disconnected then some s.identifier else none,
      created := none,
      recordedIdentifier := s.identifier }
  | none =>
    { returnedIdentifier := freshId,
      resumedIdentifier := none,
      created := some (profile.localPath, profile.remotePath,
        buildCreateOptionsFromProfile profile globalIgnorePaths),
      recordedIdentifier := freshId }

/-! ### Remote path normalization (`CommandManager.normalizeRemotePath`) -/

/-- The `/^[a-zA-Z]:[/\\]/` Windows-drive test. -/
def isWindowsDrivePath (s : String) : Bool :=
  match s.data with
  | c1 :: c2 :: c3 :: _ => c1.isAlpha && c2 == ':' && (c3 == '/' || c3 == '\\')
  | _ => false

/-- `CommandManager.normalizeRemotePath` (`substring(0, indexOf(':'))`
is `takeWhile (· ≠ ':')` when the string contains a colon). -/
def normalizeRemotePath (remotePath : String) : String :=
  if strStartsWith remotePath "docker://" then remotePath
  else if !strContains remotePath ':' || isWindowsDrivePath remotePath then remotePath
  else
    let beforeColon := strTakeWhile remotePath (fun c => c != ':')
    if !strContains beforeColon '@' then "root@" ++ remotePath
    else remotePath

/-! ### Concrete fixtures used by witnesses and counterexamples -/

def exEndpointLocal : Endpoint :=
  { protocol := EndpointProtocol.localP, host := none, user := none,
    path := "/home/u/project", connected := true, stagingProgress := none }

def exEndpointSsh : Endpoint :=
  { protocol := EndpointProtocol.ssh, host := some "h", user := some "root",
    path := "/srv/app", connected := true, stagingProgress := none }

def exConflictA : Conflict :=
  { root := "a", alphaChanges := [{ path := "p", old := JEntry.null, new := JEntry.obj [("kind", "file")] }],
    betaChanges := [] }

def exConflictB : Conflict :=
  { root := "b", alphaChanges := [],
    betaChanges := [{ path := "q", old := JEntry.obj [("kind", "dir")], new := JEntry.null }] }

def exSessionBase : Session :=
  { identifier := "sess-1", name := "proj", paused := false,
    status := SessionStatus.watching, lastError := none, successfulCycles := 3,
    conflicts := some [{ root := "r",
                         alphaChanges := [{ path := "p", old := JEntry.null, new := JEntry.obj [("kind", "file")] }],
                         betaChanges := [] }],
    alpha := exEndpointLocal, beta := exEndpointSsh, stagingProgress := none }

/-- Same session, but the conflict's `old` entry is the number `0`
instead of `null` — different conflict content, identically serialized
(both values are falsy). -/
def exSessionZeroEntry : Session :=
  { exSessionBase with
      conflicts := some [{ root := "r",
                           alphaChanges := [{ path := "p", old := JEntry.num 0, new := JEntry.obj [("kind", "file")] }],
                           betaChanges := [] }] }

def exStagingProgress : StagingProgress :=
  { path := "f.bin", receivedSize := some 1000, totalSize := some 4096, expectedSize := none }

def exStagingAlphaSession : Session :=
  { exSessionBase with
      status := SessionStatus.stagingAlpha,
      alpha := { exEndpointLocal with stagingProgress := some exStagingProgress } }

def exStagingBetaSession : Session :=
  { exSessionBase with
      status := SessionStatus.stagingBeta,
      beta := { exEndpointSsh with stagingProgress := some exStagingProgress } }

def exRateState : DirectionalRateState :=
  { lastReceivedSize := 0, lastTimestamp := 0, uploadRate := 0, downloadRate := 0,
    isLocalAlpha := true, hasSample := true }

/-- JavaScript `sort` output is determined by the multiset of elements. -/
theorem sortStrings_congr {l₁ l₂ : List String} (h : l₁.Perm l₂) :
    sortStrings l₁ = sortStrings l₂ :=
  List.eq_of_perm_of_sorted
    ((List.perm_insertionSort _ _).trans (h.trans (List.perm_insertionSort _ _).symm))
    (List.sorted_insertionSort _ _) (List.sorted_insertionSort _ _)

theorem serializeChanges_congr {l₁ l₂ : List ConflictChange} (h : l₁.Perm l₂) :
    serializeChanges l₁ = serializeChanges l₂ :=
  sortStrings_congr (h.map _)

theorem splitPending_eq (handled : HandledMap) (conflicts : List Conflict) :
    splitPending handled conflicts
      = (conflicts.filter (fun c => !isHandledExcluded handled c),
         conflicts.countP (fun c => isHandledExcluded handled c)) := by
  induction conflicts with
  | nil => rfl
  | cons c rest ih =>
    simp only [splitPending, ih, List.filter_cons, List.countP_cons]
    cases h : isHandledExcluded handled c <;> simp [h]

theorem splitHandledConflicts_eq (handled : HandledMap) (conflicts : List Conflict) :
    splitHandledConflicts handled conflicts
      = (conflicts.filter (fun c => !isHandledExcluded handled c),
         conflicts.countP (fun c => isHandledExcluded handled c)) := by
  unfold splitHandledConflicts
  split
  · next h =>
    have : handled = [] := by
      cases handled with
      | nil => rfl
      | cons a l => simp [List.isEmpty] at h
    subst this
    have hex : ∀ c : Conflict, isHandledExcluded [] c = false := by
      intro c; rfl
    simp [hex]
  · exact splitPending_eq handled conflicts

theorem isHandledExcluded_iff (handled : HandledMap) (c : Conflict) :
    isHandledExcluded handled c = true
      ↔ ∃ r : HandledConflictRecord,
          handled.lookup c.root = some r ∧ r.signature = buildConflictSignature c := by
  unfold isHandledExcluded
  cases h : handled.lookup c.root with
  | none => simp [h]
  | some r => simp [h, beq_iff_eq]

/-- C5: the computed conflict signature is invariant under any
permutation of the `alphaChanges` list and of the `betaChanges` list,
because each change list is serialized and then sorted. -/
theorem C5_signature_perm_invariant (c : Conflict)
    (a b : List ConflictChange)
    (ha : a.Perm c.alphaChanges) (hb : b.Perm c.betaChanges) :
    buildConflictSignature { root := c.root, alphaChanges := a, betaChanges := b }
      = buildConflictSignature c := by
  unfold buildConflictSignature
  rw [serializeChanges_congr ha, serializeChanges_congr hb]

/-- Witness for C5 at a concrete conflict: swapping two changes in each
list leaves the signature unchanged. -/
theorem C5_signature_perm_invariant_witness :
    buildConflictSignature
      { root := "src",
        alphaChanges := [{ path := "b.txt", old := JEntry.null, new := JEntry.obj [("kind", "file")] },
                         { path := "a.txt", old := JEntry.obj [("kind", "dir")], new := JEntry.null }],
        betaChanges := [{ path := "d", old := JEntry.null, new := JEntry.null },
                        { path := "c", old := JEntry.obj [("digest", "ff")], new := JEntry.null }] }
      = buildConflictSignature
      { root := "src",
        alphaChanges := [{ path := "a.txt", old := JEntry.obj [("kind", "dir")], new := JEntry.null },
                         { path := "b.txt", old := JEntry.null, new := JEntry.obj [("kind", "file")] }],
        betaChanges := [{ path := "c", old := JEntry.obj [("digest", "ff")], new := JEntry.null },
                        { path := "d", old := JEntry.null, new := JEntry.null }] } :=
  C5_signature_perm_invariant
    { root := "src",
      alphaChanges := [{ path := "a.txt", old := JEntry.obj [("kind", "dir")], new := JEntry.null },
                       { path := "b.txt", old := JEntry.null, new := JEntry.obj [("kind", "file")] }],
      betaChanges := [{ path := "c", old := JEntry.obj [("digest", "ff")], new := JEntry.null },
                      { path := "d", old := JEntry.null, new := JEntry.null }] }
    [{ path := "b.txt", old := JEntry.null, new := JEntry.obj [("kind", "file")] },
     { path := "a.txt", old := JEntry.obj [("kind", "dir")], new := JEntry.null }]
    [{ path := "d", old := JEntry.null, new := JEntry.null },
     { path := "c", old := JEntry.obj [("digest", "ff")], new := JEntry.null }]
    (List.Perm.swap _ _ _) (List.Perm.swap _ _ _)

theorem acceptAllConflicts_confirm_eq (conflicts : List Conflict) (handled : HandledMap)
    (applyOk : Conflict → Bool) (resetOk flushOk : Bool) (d : ConflictDirection) :
    acceptAllConflicts conflicts handled true applyOk resetOk flushOk d
      = if (splitHandledConflicts handled conflicts).1.isEmpty then
          { trace := [], excludedCount := (splitHandledConflicts handled conflicts).2,
            attemptedCount := 0, successCount := 0, failedCount := 0, converged := false }
        else
          { trace :=
              (splitHandledConflicts handled conflicts).1.map
                  (fun c => EngineOp.applyConflict c.root d)
                ++ (if decide (0 < (splitHandledConflicts handled conflicts).1.length)
                      && (((splitHandledConflicts handled conflicts).1.filter
                            (fun c => !applyOk c)).length == 0) then
                      EngineOp.resetSession
                        :: (if resetOk then [EngineOp.flushSession] else [])
                    else []),
            excludedCount := (splitHandledConflicts handled conflicts).2,
            attemptedCount := (splitHandledConflicts handled conflicts).1.length,
            successCount :=
              ((splitHandledConflicts handled conflicts).1.filter (fun c => applyOk c)).length,
            failedCount :=
              ((splitHandledConflicts handled conflicts).1.filter (fun c => !applyOk c)).length,
            converged :=
              (decide (0 < (splitHandledConflicts handled conflicts).1.length)
                  && (((splitHandledConflicts handled conflicts).1.filter
                        (fun c => !applyOk c)).length == 0))
                && resetOk && flushOk } := by
  by_cases hc : conflicts.isEmpty
  · have hnil : conflicts = [] := by
      cases conflicts with
      | nil => rfl
      | cons a l => simp [List.isEmpty] at hc
    subst hnil
    have hsplit : splitHandledConflicts handled [] = ([], 0) := by
      rw [splitHandledConflicts_eq]; rfl
    simp [acceptAllConflicts, hsplit]
  · unfold acceptAllConflicts
    rw [if_neg (by simpa using hc)]
    by_cases hp : (splitHandledConflicts handled conflicts).1.isEmpty
    · simp [hp]
    · simp [hp]

/-- C1: with the user confirming the batch, if the pending partition is
empty no engine operation is emitted; otherwise every pending conflict
is applied in order (failures only counted, never aborting the batch)
and `reset` followed by `flush` is issued exactly once iff at least one
conflict was attempted and none of the attempted applications failed. -/
theorem C1_accept_all_convergence (conflicts : List Conflict) (handled : HandledMap)
    (applyOk : Conflict → Bool) (resetOk flushOk : Bool) (d : ConflictDirection)
    (out : AcceptAllOutcome) (pending : List Conflict)
    (hout : out = acceptAllConflicts conflicts handled true applyOk resetOk flushOk d)
    (hpending : pending = (splitHandledConflicts handled conflicts).1) :
    (pending = [] → out.trace = [])
    ∧ (pending ≠ [] →
        out.attemptedCount = pending.length
        ∧ out.failedCount = (pending.filter (fun c => !applyOk c)).length
        ∧ out.trace
            = pending.map (fun c => EngineOp.applyConflict c.root d)
              ++ (if out.failedCount = 0 then
                    EngineOp.resetSession :: (if resetOk then [EngineOp.flushSession] else [])
                  else []))
    ∧ (resetOk = true →
        ((out.trace.count EngineOp.resetSession = 1
            ∧ out.trace.count EngineOp.flushSession = 1)
          ↔ (1 ≤ out.attemptedCount ∧ out.failedCount = 0))) := by
  subst hout hpending
  rw [acceptAllConflicts_confirm_eq]
  by_cases hp : (splitHandledConflicts handled conflicts).1.isEmpty
  · rw [if_pos hp]
    refine ⟨fun _ => rfl, fun hne => absurd (List.isEmpty_iff.mp hp) hne, fun _ => ?_⟩
    simp
  · rw [if_neg hp]
    have hne : (splitHandledConflicts handled conflicts).1 ≠ [] := by
      intro h; exact hp (by simp [h])
    have hlen : 0 < (splitHandledConflicts handled conflicts).1.length :=
      List.length_pos.mpr hne
    have happly_reset :
        ((splitHandledConflicts handled conflicts).1.map
            (fun c => EngineOp.applyConflict c.root d)).count EngineOp.resetSession = 0 :=
      List.count_eq_zero.mpr (by simp)
    have happly_flush :
        ((splitHandledConflicts handled conflicts).1.map
            (fun c => EngineOp.applyConflict c.root d)).count EngineOp.flushSession = 0 :=
      List.count_eq_zero.mpr (by simp)
    refine ⟨fun h => absurd h hne, fun _ => ⟨rfl, rfl, ?_⟩, fun hreset => ?_⟩
    · simp [hlen]
    · subst hreset
      by_cases hfail :
          ((splitHandledConflicts handled conflicts).1.filter (fun c => !applyOk c)).length = 0
      · have h1 : 1 ≤ (splitHandledConflicts handled conflicts).1.length := hlen
        simp [hfail, List.count_append, happly_reset, happly_flush, List.count_cons, h1, hlen]
      · simp [hlen, hfail, List.count_append, happly_reset, happly_flush]

/-- Witness for C1, the spec's batch scenario: three conflicts, one of
which has a matching handled record, all applications succeed; two are
attempted and `reset`+`flush` each appear exactly once in the trace. -/
theorem C1_accept_all_convergence_witness :
    1 ≤ (acceptAllConflicts
          [{ root := "r1", alphaChanges := [], betaChanges := [] },
           { root := "r2", alphaChanges := [], betaChanges := [] },
           { root := "r3", alphaChanges := [], betaChanges := [] }]
          [("r1", { direction := ConflictDirection.localDir,
                    signature := buildConflictSignature
                      { root := "r1", alphaChanges := [], betaChanges := [] },
                    atMs := 0 })]
          true (fun _ => true) true true ConflictDirection.localDir).attemptedCount
    ∧ (acceptAllConflicts
          [{ root := "r1", alphaChanges := [], betaChanges := [] },
           { root := "r2", alphaChanges := [], betaChanges := [] },
           { root := "r3", alphaChanges := [], betaChanges := [] }]
          [("r1", { direction := ConflictDirection.localDir,
                    signature := buildConflictSignature
                      { root := "r1", alphaChanges := [], betaChanges := [] },
                    atMs := 0 })]
          true (fun _ => true) true true ConflictDirection.localDir).attemptedCount = 2
    ∧ (acceptAllConflicts
          [{ root := "r1", alphaChanges := [], betaChanges := [] },
           { root := "r2", alphaChanges := [], betaChanges := [] },
           { root := "r3", alphaChanges := [], betaChanges := [] }]
          [("r1", { direction := ConflictDirection.localDir,
                    signature := buildConflictSignature
                      { root := "r1", alphaChanges := [], betaChanges := [] },
                    atMs := 0 })]
          true (fun _ => true) true true ConflictDirection.localDir).excludedCount = 1
    ∧ (acceptAllConflicts
          [{ root := "r1", alphaChanges := [], betaChanges := [] },
           { root := "r2", alphaChanges := [], betaChanges := [] },
           { root := "r3", alphaChanges := [], betaChanges := [] }]
          [("r1", { direction := ConflictDirection.localDir,
                    signature := buildConflictSignature
                      { root := "r1", alphaChanges := [], betaChanges := [] },
                    atMs := 0 })]
          true (fun _ => true) true true ConflictDirection.localDir).trace.count
        EngineOp.resetSession = 1
    ∧ (acceptAllConflicts
          [{ root := "r1", alphaChanges := [], betaChanges := [] },
           { root := "r2", alphaChanges := [], betaChanges := [] },
           { root := "r3", alphaChanges := [], betaChanges := [] }]
          [("r1", { direction := ConflictDirection.localDir,
                    signature := buildConflictSignature
                      { root := "r1", alphaChanges := [], betaChanges := [] },
                    atMs := 0 })]
          true (fun _ => true) true true ConflictDirection.localDir).trace.count
        EngineOp.flushSession = 1 := by
  have h := (C1_accept_all_convergence
    [{ root := "r1", alphaChanges := [], betaChanges := [] },
     { root := "r2", alphaChanges := [], betaChanges := [] },
     { root := "r3", alphaChanges := [], betaChanges := [] }]
    [("r1", { direction := ConflictDirection.localDir,
              signature := buildConflictSignature
                { root := "r1", alphaChanges := [], betaChanges := [] },
              atMs := 0 })]
    (fun _ => true) true true ConflictDirection.localDir _ _ rfl rfl).2.2 rfl
  have hcounts := h.mpr ⟨by decide, by decide⟩
  exact ⟨by decide, by decide, by decide, hcounts.1, hcounts.2⟩

/-- C2: a conflict in the live list is excluded from the batch iff a
handled record exists for the same root whose stored signature equals
the conflict's current signature; the record's direction (and the
requested batch direction, which `splitHandledConflicts` never sees) is
irrelevant, and a conflict whose signature differs from its record stays
pending. -/
theorem C2_split_excluded_iff (handled : HandledMap) (conflicts : List Conflict)
    (c : Conflict) (hc : c ∈ conflicts) :
    (c ∈ (splitHandledConflicts handled conflicts).1
      ↔ ¬ ∃ r : HandledConflictRecord,
            handled.lookup c.root = some r ∧ r.signature = buildConflictSignature c)
    ∧ ∀ f : ConflictDirection → ConflictDirection,
        splitHandledConflicts
          (handled.map (fun kr => (kr.1, { kr.2 with direction := f kr.2.direction })))
          conflicts
        = splitHandledConflicts handled conflicts := by
  constructor
  · rw [splitHandledConflicts_eq]
    simp only [List.mem_filter, Bool.not_eq_true', ← isHandledExcluded_iff]
    constructor
    · rintro ⟨-, h⟩
      simp [h]
    · intro h
      exact ⟨hc, by simpa using h⟩
  · intro f
    have hlookup : ∀ root : String,
        (handled.map (fun kr => (kr.1, { kr.2 with direction := f kr.2.direction }))).lookup root
          = (handled.lookup root).map (fun r => { r with direction := f r.direction }) := by
      intro root
      induction handled with
      | nil => rfl
      | cons kr rest ih =>
        simp only [List.map_cons, List.lookup]
        cases h : root == kr.1 <;> simp [h, ih]
    have hex : ∀ c : Conflict,
        isHandledExcluded
          (handled.map (fun kr => (kr.1, { kr.2 with direction := f kr.2.direction }))) c
          = isHandledExcluded handled c := by
      intro c
      unfold isHandledExcluded
      rw [hlookup]
      cases handled.lookup c.root <;> rfl
    rw [splitHandledConflicts_eq, splitHandledConflicts_eq]
    simp only [hex]

/-- Witness for C2: a handled record at root `r1` with matching
signature but opposite direction excludes the conflict; a stale record
at root `r2` leaves its conflict pending. -/
theorem C2_split_excluded_iff_witness :
    ((({ root := "r1",
         alphaChanges := [{ path := "p", old := JEntry.null, new := JEntry.null }],
         betaChanges := [] } : Conflict)
        ∈ (splitHandledConflicts
            [("r1", { direction := ConflictDirection.remoteDir,
                      signature := buildConflictSignature
                        { root := "r1",
                          alphaChanges := [{ path := "p", old := JEntry.null, new := JEntry.null }],
                          betaChanges := [] },
                      atMs := 0 })]
            [{ root := "r1",
               alphaChanges := [{ path := "p", old := JEntry.null, new := JEntry.null }],
               betaChanges := [] }]).1)
      ↔ ¬ ∃ r : HandledConflictRecord,
            ([("r1", { direction := ConflictDirection.remoteDir,
                       signature := buildConflictSignature
                         { root := "r1",
                           alphaChanges := [{ path := "p", old := JEntry.null, new := JEntry.null }],
                           betaChanges := [] },
                       atMs := 0 })] : HandledMap).lookup
              ({ root := "r1",
                 alphaChanges := [{ path := "p", old := JEntry.null, new := JEntry.null }],
                 betaChanges := [] } : Conflict).root = some r
            ∧ r.signature = buildConflictSignature
                { root := "r1",
                  alphaChanges := [{ path := "p", old := JEntry.null, new := JEntry.null }],
                  betaChanges := [] }) := by
  exact (C2_split_excluded_iff _ _ _ (by decide)).1

/-- C10: a remote-path input containing a colon, not a docker URL, not a
Windows drive path, and whose segment before the first colon has no `@`,
is prefixed with `root@`; every other input is returned unchanged. -/
theorem C10_normalize_remote_path (s : String) :
    (strStartsWith s "docker://" = true → normalizeRemotePath s = s)
    ∧ (strContains s ':' = false → normalizeRemotePath s = s)
    ∧ (isWindowsDrivePath s = true → normalizeRemotePath s = s)
    ∧ (strContains (strTakeWhile s (fun c => c != ':')) '@' = true →
        normalizeRemotePath s = s)
    ∧ (strStartsWith s "docker://" = false → strContains s ':' = true →
        isWindowsDrivePath s = false →
        strContains (strTakeWhile s (fun c => c != ':')) '@' = false →
        normalizeRemotePath s = "root@" ++ s) := by
  unfold normalizeRemotePath
  refine ⟨?_, ?_, ?_, ?_, ?_⟩
  · intro h
    simp [h]
  · intro h
    by_cases hd : strStartsWith s "docker://" <;> simp [h, hd]
  · intro h
    by_cases hd : strStartsWith s "docker://" <;> simp [h, hd]
  · intro h
    by_cases hd : strStartsWith s "docker://"
    · simp [hd]
    · by_cases hc : strContains s ':'
      · by_cases hw : isWindowsDrivePath s <;> simp [hd, hc, hw, h]
      · simp [hd, hc]
  · intro h1 h2 h3 h4
    simp [h1, h2, h3, h4]

/-- Witness for C10: `host:/x` gains the `root@` default user, while
`user@host:/x`, a docker URL, a plain path and a Windows drive path
pass through unchanged. -/
theorem C10_normalize_remote_path_witness :
    normalizeRemotePath "host:/x" = "root@" ++ "host:/x"
    ∧ normalizeRemotePath "user@host:/x" = "user@host:/x"
    ∧ normalizeRemotePath "docker://c/x" = "docker://c/x"
    ∧ normalizeRemotePath "/plain/path" = "/plain/path"
    ∧ normalizeRemotePath "C:/dir" = "C:/dir" :=
  ⟨(C10_normalize_remote_path "host:/x").2.2.2.2 (by decide) (by decide) (by decide) (by decide),
   (C10_normalize_remote_path "user@host:/x").2.2.2.1 (by decide),
   (C10_normalize_remote_path "docker://c/x").1 (by decide),
   (C10_normalize_remote_path "/plain/path").2.1 (by decide),
   (C10_normalize_remote_path "C:/dir").2.2.1 (by decide)⟩

theorem sessionChanged_iff (o s : Session) :
    sessionChanged o s = true
      ↔ (o.status ≠ s.status ∨ o.paused ≠ s.paused
         ∨ o.successfulCycles ≠ s.successfulCycles
         ∨ o.lastError ≠ s.lastError
         ∨ o.alpha.connected ≠ s.alpha.connected
         ∨ o.beta.connected ≠ s.beta.connected
         ∨ getConflictFingerprint o ≠ getConflictFingerprint s
         ∨ sessionStagingReceived o ≠ sessionStagingReceived s) := by
  simp only [sessionChanged, Bool.or_eq_true, bne_iff_ne]
  tauto

/-- C4 (amended): change detection fires exactly when the session count
differs, an identifier is new (no previous session carries it), or a
matched pair differs on one of the eight compared fields; the conflict
fingerprint is invariant under reordering of the conflict list, so
byte-identical conflict lists never contribute a change.  (The original
claim's "any conflict content change fires" fails for falsy-collapsed
entry values, see the counterexample.) -/
theorem C4_detect_changes (prev next : List Session) :
    (detectChanges prev next = true
      ↔ (next.length ≠ prev.length
          ∨ ∃ s ∈ next,
              sessionMapLookup prev s.identifier = none
              ∨ ∃ o : Session, sessionMapLookup prev s.identifier = some o
                  ∧ (o.status ≠ s.status ∨ o.paused ≠ s.paused
                     ∨ o.successfulCycles ≠ s.successfulCycles
                     ∨ o.lastError ≠ s.lastError
                     ∨ o.alpha.connected ≠ s.alpha.connected
                     ∨ o.beta.connected ≠ s.beta.connected
                     ∨ getConflictFingerprint o ≠ getConflictFingerprint s
                     ∨ sessionStagingReceived o ≠ sessionStagingReceived s)))
    ∧ (∀ id : String, sessionMapLookup prev id = none ↔ ∀ o ∈ prev, o.identifier ≠ id)
    ∧ (∀ o n : Session, (o.conflicts.getD []).Perm (n.conflicts.getD []) →
        getConflictFingerprint o = getConflictFingerprint n) := by
  refine ⟨?_, ?_, ?_⟩
  · have hs : ∀ s : Session,
        ((match sessionMapLookup prev s.identifier with
          | none => true
          | some oldS => sessionChanged oldS s) = true)
          ↔ (sessionMapLookup prev s.identifier = none
              ∨ ∃ o : Session, sessionMapLookup prev s.identifier = some o
                  ∧ (o.status ≠ s.status ∨ o.paused ≠ s.paused
                     ∨ o.successfulCycles ≠ s.successfulCycles
                     ∨ o.lastError ≠ s.lastError
                     ∨ o.alpha.connected ≠ s.alpha.connected
                     ∨ o.beta.connected ≠ s.beta.connected
                     ∨ getConflictFingerprint o ≠ getConflictFingerprint s
                     ∨ sessionStagingReceived o ≠ sessionStagingReceived s)) := by
      intro s
      cases h : sessionMapLookup prev s.identifier with
      | none => simp [h]
      | some o => simp [h, sessionChanged_iff]
    unfold detectChanges
    by_cases hl : next.length = prev.length
    · have : (next.length != prev.length) = false := by simp [hl]
      rw [this, if_neg (by simp)]
      simp only [List.any_eq_true, hs]
      constructor
      · intro ⟨s, hmem, hrest⟩
        exact Or.inr ⟨s, hmem, hrest⟩
      · rintro (hlen | ⟨s, hmem, hrest⟩)
        · exact absurd hl hlen
        · exact ⟨s, hmem, hrest⟩
    · have : (next.length != prev.length) = true := by simp [bne_iff_ne, hl]
      rw [this, if_pos rfl]
      simp [hl]
  · intro id
    unfold sessionMapLookup
    rw [List.find?_eq_none]
    constructor
    · intro h o ho
      have := h o (List.mem_reverse.mpr ho)
      simpa [beq_iff_eq] using this
    · intro h o ho
      have := h o (List.mem_reverse.mp ho)
      simpa [beq_iff_eq] using this
  · intro o n h
    unfold getConflictFingerprint
    rw [sortStrings_congr (h.map _)]

/-- Witness for C4 at concrete sessions: reordering a two-conflict list
leaves the fingerprint unchanged. -/
theorem C4_detect_changes_witness :
    getConflictFingerprint { exSessionBase with conflicts := some [exConflictB, exConflictA] }
      = getConflictFingerprint { exSessionBase with conflicts := some [exConflictA, exConflictB] } :=
  (C4_detect_changes [] []).2.2 _ _ (List.Perm.swap _ _ _)

/-- Counterexample for C4 as stated: the two snapshots differ in
conflict content (the `old` entry of the change at root `r` is `null`
versus the number `0`), but both serialize to `'null'`, the fingerprints
coincide, and no change is detected. -/
theorem C4_detect_changes_counterexample :
    detectChanges [exSessionBase] [exSessionZeroEntry] = false
    ∧ exSessionBase.conflicts ≠ exSessionZeroEntry.conflicts := by
  constructor
  · decide
  · decide

/-- Counterexample for C3 as stated: a session in status staging-alpha
whose local endpoint is alpha resolves to the `upload` direction, and a
positive computed rate lands in `uploadRate` with `downloadRate = 0` —
not in the download rate as the claim requires. -/
theorem C3_transfer_direction_counterexample :
    isLocalAlpha exStagingAlphaSession = true
    ∧ exStagingAlphaSession.status = SessionStatus.stagingAlpha
    ∧ resolveTransferDirection exStagingAlphaSession true = some TransferDirection.upload
    ∧ (updateWorkspaceRateFromMonitor (some exRateState) exStagingAlphaSession 1000).uploadRate = 1000
    ∧ (updateWorkspaceRateFromMonitor (some exRateState) exStagingAlphaSession 1000).downloadRate = 0 := by
  refine ⟨by decide, by decide, by decide, ?_, ?_⟩ <;>
    (norm_num [updateWorkspaceRateFromMonitor, getStagingReceivedSize,
      getSessionStagingProgress, exStagingAlphaSession, exRateState, exStagingProgress,
      resolveTransferDirection, isLocalAlpha, exEndpointLocal, exEndpointSsh,
      RATE_SAMPLE_INTERVAL_MS, exSessionBase, Option.orElse];
     try decide)

/-- C3 (amended): in status staging-alpha the computed rate is
attributed to the upload rate when the local endpoint is alpha (download
zero), and in status staging-beta to the download rate (upload zero) —
the opposite of the claimed mapping. -/
theorem C3_staging_direction (s : Session) (st : DirectionalRateState) (now sz : Rat)
    (hla : isLocalAlpha s = true)
    (hsz : getStagingReceivedSize s = some sz)
    (hsample : st.hasSample = true)
    (helapsed : RATE_SAMPLE_INTERVAL_MS ≤ now - st.lastTimestamp) :
    (s.status = SessionStatus.stagingAlpha →
      (updateWorkspaceRateFromMonitor (some st) s now).uploadRate
          = max 0 ((sz - st.lastReceivedSize) / ((now - st.lastTimestamp) / 1000))
        ∧ (updateWorkspaceRateFromMonitor (some st) s now).downloadRate = 0)
    ∧ (s.status = SessionStatus.stagingBeta →
      (updateWorkspaceRateFromMonitor (some st) s now).downloadRate
          = max 0 ((sz - st.lastReceivedSize) / ((now - st.lastTimestamp) / 1000))
        ∧ (updateWorkspaceRateFromMonitor (some st) s now).uploadRate = 0) := by
  have hnotlt : ¬ (now - st.lastTimestamp < RATE_SAMPLE_INTERVAL_MS) := not_lt.mpr helapsed
  have hpos : (0 : Rat) < (now - st.lastTimestamp) / 1000 := by
    have h500 : (0 : Rat) < 500 := by norm_num
    have : (0 : Rat) < now - st.lastTimestamp :=
      lt_of_lt_of_le h500 (by simpa [RATE_SAMPLE_INTERVAL_MS] using helapsed)
    positivity
  constructor
  · intro hstatus
    have hdir' : resolveTransferDirection s true = some TransferDirection.upload := by
      simp [resolveTransferDirection, hstatus]
    unfold updateWorkspaceRateFromMonitor
    simp only [Option.getD_some, hla, hsz, hdir']
    simp [hsample, hnotlt, hpos, hpos.ne']
  · intro hstatus
    have hdir' : resolveTransferDirection s true = some TransferDirection.download := by
      simp [resolveTransferDirection, hstatus]
    unfold updateWorkspaceRateFromMonitor
    simp only [Option.getD_some, hla, hsz, hdir']
    simp [hsample, hnotlt, hpos, hpos.ne']

/-- Witness for C3 (amended) at concrete sessions: staging-alpha with a
local alpha endpoint yields upload 1000 B/s, staging-beta yields
download 1000 B/s. -/
theorem C3_staging_direction_witness :
    ((updateWorkspaceRateFromMonitor (some exRateState) exStagingAlphaSession 1000).uploadRate
        = max 0 ((1000 - 0) / ((1000 - 0) / 1000))
      ∧ (updateWorkspaceRateFromMonitor (some exRateState) exStagingAlphaSession 1000).downloadRate = 0)
    ∧ ((updateWorkspaceRateFromMonitor (some exRateState) exStagingBetaSession 1000).downloadRate
        = max 0 ((1000 - 0) / ((1000 - 0) / 1000))
      ∧ (updateWorkspaceRateFromMonitor (some exRateState) exStagingBetaSession 1000).uploadRate = 0) :=
  ⟨(C3_staging_direction exStagingAlphaSession exRateState 1000 1000
      (by decide) (by decide) (by decide)
      (by norm_num [RATE_SAMPLE_INTERVAL_MS, exRateState])).1 rfl,
   (C3_staging_direction exStagingBetaSession exRateState 1000 1000
      (by decide) (by decide) (by decide)
      (by norm_num [RATE_SAMPLE_INTERVAL_MS, exRateState])).2 rfl⟩

theorem commonLen_le (a : List String) : ∀ b : List String, commonLen a b ≤ a.length := by
  induction a with
  | nil => intro b; cases b <;> simp [commonLen]
  | cons x xs ih =>
    intro b
    cases b with
    | nil => simp [commonLen]
    | cons y ys =>
      unfold commonLen
      by_cases h : (x == y) = true
      · rw [if_pos h]
        simpa using Nat.succ_le_succ (ih ys)
      · rw [if_neg h]
        simp

theorem commonLen_full (a : List String) :
    ∀ b : List String, commonLen a b = a.length → a.isPrefixOf b = true := by
  induction a with
  | nil => intro b _; simp [List.isPrefixOf]
  | cons x xs ih =>
    intro b h
    cases b with
    | nil => simp [commonLen] at h
    | cons y ys =>
      unfold commonLen at h
      by_cases hxy : (x == y) = true
      · rw [if_pos hxy] at h
        simp only [List.length_cons] at h
        have := ih ys (Nat.add_right_cancel h)
        simp [List.isPrefixOf, hxy, this]
      · rw [if_neg hxy] at h
        simp at h

theorem isSubPath_isPrefixOf {base t : List String} (h : isSubPath base t = true) :
    base.isPrefixOf t = true := by
  have hk : commonLen base t = base.length := by
    by_contra hne
    have hlt : commonLen base t < base.length :=
      lt_of_le_of_ne (commonLen_le base t) hne
    obtain ⟨m, hm⟩ :
        ∃ m, base.length - commonLen base t = m + 1 :=
      ⟨base.length - commonLen base t - 1, by omega⟩
    unfold isSubPath relativeSegs at h
    rw [hm] at h
    simp only [List.replicate_succ, List.cons_append, List.isEmpty_cons,
      startsWithDotDot, Bool.false_or] at h
    have : strStartsWith ".." ".." = true := by decide
    rw [this] at h
    simp at h
  exact commonLen_full base t hk

/-- C6: a successfully resolved local conflict path always lies inside
the local root; a conflict root whose segments escape the root resolves
to a path-escape error; and `applyConflictDirection` propagates either
resolution error before emitting any filesystem or remote-shell
operation. -/
theorem C6_path_escape_safety :
    (∀ (localRoot conflictRoot : String) (res : List String),
        resolveLocalConflictPath localRoot conflictRoot = Except.ok res →
        (parseAbsolutePath localRoot).isPrefixOf res = true)
    ∧ (∀ localRoot conflictRoot : String,
        (parseAbsolutePath localRoot).isPrefixOf
            (resolveSegs (parseAbsolutePath localRoot) (splitConflictRoot conflictRoot)) = false →
        resolveLocalConflictPath localRoot conflictRoot
          = Except.error ("Conflict path escapes local root: " ++ conflictRoot))
    ∧ (∀ (s : Session) (c : Conflict) (d : ConflictDirection) (st : PathState)
          (e : String) (localEp remoteEp : Endpoint),
        getConflictEndpoints s = some (localEp, remoteEp) →
        resolveLocalConflictPath localEp.path c.root = Except.error e →
        applyConflictDirection s c d st = Except.error e)
    ∧ (∀ (s : Session) (c : Conflict) (d : ConflictDirection) (st : PathState)
          (e : String) (localEp remoteEp : Endpoint) (lp : List String),
        getConflictEndpoints s = some (localEp, remoteEp) →
        resolveLocalConflictPath localEp.path c.root = Except.ok lp →
        resolveEndpointConflictPath remoteEp c.root = Except.error e →
        applyConflictDirection s c d st = Except.error e) := by
  refine ⟨?_, ?_, ?_, ?_⟩
  · intro localRoot conflictRoot res h
    unfold resolveLocalConflictPath at h
    by_cases hsub : isSubPath (parseAbsolutePath localRoot)
        (resolveSegs (parseAbsolutePath localRoot) (splitConflictRoot conflictRoot)) = true
    · rw [if_pos hsub] at h
      cases h
      exact isSubPath_isPrefixOf hsub
    · rw [if_neg hsub] at h
      cases h
  · intro localRoot conflictRoot h
    unfold resolveLocalConflictPath
    rw [if_neg]
    intro hsub
    rw [isSubPath_isPrefixOf hsub] at h
    cases h
  · intro s c d st e localEp remoteEp hends herr
    unfold applyConflictDirection
    rw [hends]
    simp [herr, Bind.bind, Except.bind]
  · intro s c d st e localEp remoteEp lp hends hok herr
    unfold applyConflictDirection
    rw [hends]
    simp [hok, herr, Bind.bind, Except.bind]

/-- Witness for C6, the spec's example: conflict root `../../etc`
against local root `/home/u/project` fails resolution with the
path-escape error, and the batch application step for such a conflict
fails without emitting operations. -/
theorem C6_path_escape_safety_witness :
    resolveLocalConflictPath "/home/u/project" "../../etc"
      = Except.error ("Conflict path escapes local root: " ++ "../../etc")
    ∧ applyConflictDirection exSessionBase
        { root := "../../etc", alphaChanges := [], betaChanges := [] }
        ConflictDirection.localDir PathState.file
      = Except.error ("Conflict path escapes local root: " ++ "../../etc") :=
  ⟨(C6_path_escape_safety).2.1 "/home/u/project" "../../etc" (by decide),
   (C6_path_escape_safety).2.2.1 exSessionBase
     { root := "../../etc", alphaChanges := [], betaChanges := [] }
     ConflictDirection.localDir PathState.file _ exEndpointLocal exEndpointSsh
     (by decide)
     ((C6_path_escape_safety).2.1 "/home/u/project" "../../etc" (by decide))⟩

theorem find?_append_none {α : Type} (l1 l2 : List α) (p : α → Bool)
    (h : l1.find? p = none) : (l1 ++ l2).find? p = l2.find? p := by
  induction l1 with
  | nil => simp
  | cons x xs ih =>
    cases hx : p x with
    | true =>
      rw [List.find?_cons_of_pos _ hx] at h
      cases h
    | false =>
      rw [List.find?_cons_of_neg _ (by simp [hx])] at h
      rw [List.cons_append, List.find?_cons_of_neg _ (by simp [hx])]
      exact ih h

/-- C7: two upserts with the same dedup key (over normalized paths) into
a store that does not yet hold that key leave exactly one profile with
the key; it keeps the id minted by the first call, its
`lastSessionIdentifier` is the second caller's value or else the first
call's, and the mutable fields all come from the second input. -/
theorem C7_upsert_dedup (profiles : List ConnectionProfile)
    (i1 i2 : UpsertConnectionProfileInput) (now1 fid1 now2 fid2 k : String)
    (r1 r2 : List ConnectionProfile × ConnectionProfile)
    (hk1 : getDeduplicationKey (normalizePath i1.workspaceFolder)
             (normalizePath i1.localPath) i1.remotePath = k)
    (hk2 : getDeduplicationKey (normalizePath i2.workspaceFolder)
             (normalizePath i2.localPath) i2.remotePath = k)
    (hnokey : ∀ p ∈ profiles,
        getDeduplicationKey p.workspaceFolder p.localPath p.remotePath ≠ k)
    (hfresh : ∀ p ∈ profiles, p.id ≠ fid1)
    (hr1 : r1 = upsertProfile profiles i1 now1 fid1)
    (hr2 : r2 = upsertProfile r1.1 i2 now2 fid2) :
    r2.1 = profiles ++ [r2.2]
    ∧ (r2.1.filter (fun p =>
          getDeduplicationKey p.workspaceFolder p.localPath p.remotePath == k)).length = 1
    ∧ r2.2.id = fid1
    ∧ r2.2.lastSessionIdentifier
        = (match i2.lastSessionIdentifier with
           | some sid => some sid
           | none => i1.lastSessionIdentifier)
    ∧ r2.2.localPath = normalizePath i2.localPath
    ∧ r2.2.remotePath = i2.remotePath
    ∧ r2.2.mode = i2.mode
    ∧ r2.2.ignoreVcs = i2.ignoreVcs
    ∧ r2.2.workspaceFolder = normalizePath i2.workspaceFolder
    ∧ r2.2.updatedAt = now2 := by
  have hfind1 : profiles.find? (fun p =>
      getDeduplicationKey p.workspaceFolder p.localPath p.remotePath
        == getDeduplicationKey (normalizePath i1.workspaceFolder)
             (normalizePath i1.localPath) i1.remotePath) = none := by
    rw [List.find?_eq_none]
    intro p hp
    simp only [beq_iff_eq, hk1]
    exact hnokey p hp
  have hfilter : profiles.filter (fun item => item.id != fid1) = profiles := by
    rw [List.filter_eq_self]
    intro p hp
    simpa [bne_iff_ne] using hfresh p hp
  have h1eq : r1.1 = profiles ++ [r1.2] := by
    subst hr1
    simp [upsertProfile, hfind1, hfilter]
  have h1id : r1.2.id = fid1 := by
    subst hr1
    simp [upsertProfile, hfind1]
  have h1wf : r1.2.workspaceFolder = normalizePath i1.workspaceFolder := by
    subst hr1
    simp [upsertProfile, hfind1]
  have h1lp : r1.2.localPath = normalizePath i1.localPath := by
    subst hr1
    simp [upsertProfile, hfind1]
  have h1rp : r1.2.remotePath = i1.remotePath := by
    subst hr1
    simp [upsertProfile, hfind1]
  have h1last : r1.2.lastSessionIdentifier = i1.lastSessionIdentifier := by
    subst hr1
    simp only [upsertProfile, hfind1]
    cases i1.lastSessionIdentifier <;> rfl
  have hkeyp1 : getDeduplicationKey r1.2.workspaceFolder r1.2.localPath r1.2.remotePath = k := by
    rw [h1wf, h1lp, h1rp, hk1]
  have hfind2 : r1.1.find? (fun p =>
      getDeduplicationKey p.workspaceFolder p.localPath p.remotePath
        == getDeduplicationKey (normalizePath i2.workspaceFolder)
             (normalizePath i2.localPath) i2.remotePath) = some r1.2 := by
    have hbase : profiles.find? (fun p =>
        getDeduplicationKey p.workspaceFolder p.localPath p.remotePath
          == getDeduplicationKey (normalizePath i2.workspaceFolder)
               (normalizePath i2.localPath) i2.remotePath) = none := by
      rw [List.find?_eq_none]
      intro p hp
      simp only [beq_iff_eq, hk2]
      exact hnokey p hp
    rw [h1eq, find?_append_none _ _ _ hbase]
    rw [List.find?_cons_of_pos]
    simp only [beq_iff_eq, hk2, hkeyp1]
  have h2id : r2.2.id = fid1 := by
    subst hr2
    simp only [upsertProfile, hfind2]
    exact h1id
  have h2wf : r2.2.workspaceFolder = normalizePath i2.workspaceFolder := by
    subst hr2
    simp [upsertProfile, hfind2]
  have h2lp : r2.2.localPath = normalizePath i2.localPath := by
    subst hr2
    simp [upsertProfile, hfind2]
  have h2rp : r2.2.remotePath = i2.remotePath := by
    subst hr2
    simp [upsertProfile, hfind2]
  have h2eq : r2.1 = profiles ++ [r2.2] := by
    subst hr2
    simp only [upsertProfile, hfind2]
    rw [h1eq, List.filter_append]
    have hfilter1 : profiles.filter (fun item => item.id != r1.2.id) = profiles := by
      rw [List.filter_eq_self]
      intro p hp
      rw [h1id]
      simpa [bne_iff_ne] using hfresh p hp
    have hfilter2 : [r1.2].filter (fun item => item.id != r1.2.id) = [] := by
      simp
    rw [hfilter1, hfilter2, List.append_nil]
  refine ⟨h2eq, ?_, h2id, ?_, h2lp, h2rp, ?_, ?_, h2wf, ?_⟩
  · rw [h2eq, List.filter_append]
    have hnone : profiles.filter (fun p =>
        getDeduplicationKey p.workspaceFolder p.localPath p.remotePath == k) = [] := by
      rw [List.filter_eq_nil_iff]
      intro p hp
      simpa [beq_iff_eq] using hnokey p hp
    have hone : [r2.2].filter (fun p =>
        getDeduplicationKey p.workspaceFolder p.localPath p.remotePath == k) = [r2.2] := by
      simp [List.filter_cons, beq_iff_eq, h2wf, h2lp, h2rp, hk2]
    rw [hnone, hone]
    rfl
  · subst hr2
    simp only [upsertProfile, hfind2]
    cases i2.lastSessionIdentifier with
    | some sid => rfl
    | none => simpa using h1last
  · subst hr2
    simp [upsertProfile, hfind2]
  · subst hr2
    simp [upsertProfile, hfind2]
  · subst hr2
    simp [upsertProfile, hfind2]

/-- Witness for C7: upserting the same `(workspace, local, remote)`
triple twice with different names keeps one profile, the first id, and
the first call's session identifier. -/
theorem C7_upsert_dedup_witness :
    (upsertProfile
        (upsertProfile []
          { name := "A", localPath := "/a", remotePath := "h:/b", mode := some SyncMode.twoWaySafe,
            ignoreVcs := none, ignorePaths := none, workspaceFolder := "/w",
            lastSessionIdentifier := some "s1" } "t1" "id1").1
        { name := "B", localPath := "/a", remotePath := "h:/b", mode := none,
          ignoreVcs := none, ignorePaths := none, workspaceFolder := "/w",
          lastSessionIdentifier := none } "t2" "id2").1
      = [] ++ [(upsertProfile
          (upsertProfile []
            { name := "A", localPath := "/a", remotePath := "h:/b", mode := some SyncMode.twoWaySafe,
              ignoreVcs := none, ignorePaths := none, workspaceFolder := "/w",
              lastSessionIdentifier := some "s1" } "t1" "id1").1
          { name := "B", localPath := "/a", remotePath := "h:/b", mode := none,
            ignoreVcs := none, ignorePaths := none, workspaceFolder := "/w",
            lastSessionIdentifier := none } "t2" "id2").2]
    ∧ (upsertProfile
        (upsertProfile []
          { name := "A", localPath := "/a", remotePath := "h:/b", mode := some SyncMode.twoWaySafe,
            ignoreVcs := none, ignorePaths := none, workspaceFolder := "/w",
            lastSessionIdentifier := some "s1" } "t1" "id1").1
        { name := "B", localPath := "/a", remotePath := "h:/b", mode := none,
          ignoreVcs := none, ignorePaths := none, workspaceFolder := "/w",
          lastSessionIdentifier := none } "t2" "id2").2.id = "id1"
    ∧ (upsertProfile
        (upsertProfile []
          { name := "A", localPath := "/a", remotePath := "h:/b", mode := some SyncMode.twoWaySafe,
            ignoreVcs := none, ignorePaths := none, workspaceFolder := "/w",
            lastSessionIdentifier := some "s1" } "t1" "id1").1
        { name := "B", localPath := "/a", remotePath := "h:/b", mode := none,
          ignoreVcs := none, ignorePaths := none, workspaceFolder := "/w",
          lastSessionIdentifier := none } "t2" "id2").2.lastSessionIdentifier = some "s1" := by
  have h := C7_upsert_dedup []
    { name := "A", localPath := "/a", remotePath := "h:/b", mode := some SyncMode.twoWaySafe,
      ignoreVcs := none, ignorePaths := none, workspaceFolder := "/w",
      lastSessionIdentifier := some "s1" }
    { name := "B", localPath := "/a", remotePath := "h:/b", mode := none,
      ignoreVcs := none, ignorePaths := none, workspaceFolder := "/w",
      lastSessionIdentifier := none }
    "t1" "id1" "t2" "id2"
    (getDeduplicationKey (normalizePath "/w") (normalizePath "/a") "h:/b")
    _ _ rfl rfl (by intro p hp; cases hp) (by intro p hp; cases hp) rfl rfl
  exact ⟨h.1, h.2.2.1, h.2.2.2.1⟩

/-- C8: profile restore resolves a live session by
`lastSessionIdentifier` first, then by endpoint equality (local path
plus a remote-path equivalence accepting `host:path`, `user@host:path`
and container-URL forms); a found session is resumed iff paused or
disconnected and its id recorded; otherwise a session is created from
the profile's saved options (mode included, defaulting to two-way-safe)
and the fresh id recorded. -/
theorem C8_restore_profile (profile : ConnectionProfile) (sessions : List Session)
    (gip : List String) (freshId : String) :
    (∀ (lid : String) (s : Session),
        profile.lastSessionIdentifier = some lid →
        findSessionByIdentifier sessions lid = some s →
        restoreConnectionProfile profile sessions gip freshId
          = { returnedIdentifier := s.identifier,
              resumedIdentifier :=
                if s.paused || s.status == SessionStatus.disconnected
                then some s.identifier else none,
              created := none,
              recordedIdentifier := s.identifier })
    ∧ (∀ s : Session,
        (match profile.lastSessionIdentifier with
         | some lid => findSessionByIdentifier sessions lid
         | none => none) = none →
        findSessionByEndpoints sessions profile.localPath profile.remotePath = some s →
        restoreConnectionProfile profile sessions gip freshId
          = { returnedIdentifier := s.identifier,
              resumedIdentifier :=
                if s.paused || s.status == SessionStatus.disconnected
                then some s.identifier else none,
              created := none,
              recordedIdentifier := s.identifier })
    ∧ ((match profile.lastSessionIdentifier with
         | some lid => findSessionByIdentifier sessions lid
         | none => none) = none →
        findSessionByEndpoints sessions profile.localPath profile.remotePath = none →
        restoreConnectionProfile profile sessions gip freshId
          = { returnedIdentifier := freshId,
              resumedIdentifier := none,
              created := some (profile.localPath, profile.remotePath,
                buildCreateOptionsFromProfile profile gip),
              recordedIdentifier := freshId }
        ∧ (buildCreateOptionsFromProfile profile gip).mode
            = some (profile.mode.getD SyncMode.twoWaySafe))
    ∧ (∀ (ep : Endpoint) (h : String),
        ep.host = some h →
        jsTrim (h ++ ":" ++ ep.path) = h ++ ":" ++ ep.path →
        matchesRemotePath ep (h ++ ":" ++ ep.path) = true)
    ∧ (∀ (ep : Endpoint) (h u : String),
        ep.host = some h → ep.user = some u →
        jsTrim (u ++ "@" ++ h ++ ":" ++ ep.path) = u ++ "@" ++ h ++ ":" ++ ep.path →
        matchesRemotePath ep (u ++ "@" ++ h ++ ":" ++ ep.path) = true)
    ∧ (∀ (ep : Endpoint) (h : String),
        ep.host = some h → ep.protocol = EndpointProtocol.docker →
        jsTrim ("docker://" ++ h ++ ep.path) = "docker://" ++ h ++ ep.path →
        matchesRemotePath ep ("docker://" ++ h ++ ep.path) = true) := by
  refine ⟨?_, ?_, ?_, ?_, ?_, ?_⟩
  · intro lid s hlid hfound
    unfold restoreConnectionProfile
    rw [hlid]
    simp [hfound]
  · intro s hbyid hfound
    unfold restoreConnectionProfile
    rw [hbyid]
    simp [hfound]
  · intro hbyid hfound
    constructor
    · unfold restoreConnectionProfile
      rw [hbyid]
      simp [hfound]
    · rfl
  · intro ep h hhost htrim
    have hne : h ++ ":" ++ ep.path ≠ "" := by
      intro hemp
      have := congrArg String.length hemp
      simp [String.length_append] at this
      exact absurd this.1.2 (by decide)
    unfold matchesRemotePath
    rw [hhost, htrim]
    simp [hne]
  · intro ep h u hhost huser htrim
    have hne : u ++ "@" ++ h ++ ":" ++ ep.path ≠ "" := by
      intro hemp
      have := congrArg String.length hemp
      simp [String.length_append] at this
      exact absurd this.1.2 (by decide)
    unfold matchesRemotePath
    rw [hhost, huser, htrim]
    simp [hne]
  · intro ep h hhost hdocker htrim
    have hne : "docker://" ++ h ++ ep.path ≠ "" := by
      intro hemp
      have := congrArg String.length hemp
      simp [String.length_append] at this
      exact absurd this.1.1 (by decide)
    unfold matchesRemotePath
    rw [hhost, htrim]
    cases huser : ep.user <;> simp [hne, hdocker]

/-- Witness for C8, the spec's scenario: a saved profile
`/a ↔ user@h:/b` in mode two-way-safe with no matching live session
leads to `createSession("/a", "user@h:/b")` with mode two-way-safe and
the fresh identifier recorded; and the endpoint matcher accepts the
`host:path` and `user@host:path` forms of a concrete ssh endpoint. -/
theorem C8_restore_profile_witness :
    restoreConnectionProfile
        { id := "p1", name := "proj", localPath := "/a", remotePath := "user@h:/b",
          mode := some SyncMode.twoWaySafe, ignoreVcs := none, ignorePaths := [],
          workspaceFolder := "/w", lastSessionIdentifier := none, updatedAt := "t" }
        [] [] "fresh-1"
      = { returnedIdentifier := "fresh-1", resumedIdentifier := none,
          created := some ("/a", "user@h:/b",
            { name := some "proj", mode := some SyncMode.twoWaySafe,
              ignoreVcs := some false, ignorePaths := none }),
          recordedIdentifier := "fresh-1" }
    ∧ matchesRemotePath exEndpointSsh ("h" ++ ":" ++ exEndpointSsh.path) = true
    ∧ matchesRemotePath exEndpointSsh ("root" ++ "@" ++ "h" ++ ":" ++ exEndpointSsh.path) = true := by
  have h := C8_restore_profile
    { id := "p1", name := "proj", localPath := "/a", remotePath := "user@h:/b",
      mode := some SyncMode.twoWaySafe, ignoreVcs := none, ignorePaths := [],
      workspaceFolder := "/w", lastSessionIdentifier := none, updatedAt := "t" }
    [] [] "fresh-1"
  refine ⟨?_, ?_, ?_⟩
  · exact (h.2.2.1 rfl rfl).1.trans (by decide)
  · exact h.2.2.2.1 exEndpointSsh "h" rfl (by decide)
  · exact h.2.2.2.2.1 exEndpointSsh "h" "root" rfl rfl (by decide)

/-- Counterexample for C9 as stated: a persisted record that is an
object carrying all six required fields with string type (`id` being
the empty string) is nevertheless dropped, so load does not return
every record that merely has the required fields present with the right
type. -/
theorem C9_load_counterexample :
    parseProfile (JValue.obj [("id", JValue.str ""), ("name", JValue.str "n"),
        ("localPath", JValue.str "/a"), ("remotePath", JValue.str "h:/b"),
        ("workspaceFolder", JValue.str "/w"), ("updatedAt", JValue.str "2024-01-01")]) = none
    ∧ listProfiles (JValue.arr [JValue.obj [("id", JValue.str ""), ("name", JValue.str "n"),
        ("localPath", JValue.str "/a"), ("remotePath", JValue.str "h:/b"),
        ("workspaceFolder", JValue.str "/w"), ("updatedAt", JValue.str "2024-01-01")]]) = []
    ∧ ([("id", JValue.str ""), ("name", JValue.str "n"),
        ("localPath", JValue.str "/a"), ("remotePath", JValue.str "h:/b"),
        ("workspaceFolder", JValue.str "/w"),
        ("updatedAt", JValue.str "2024-01-01")].lookup "id") = some (JValue.str "") :=
  ⟨rfl, rfl, rfl⟩

/-- C9 (amended): loading never fails — a non-array backing value gives
the empty list, an array keeps exactly the records that are objects
whose six required fields are present as non-empty strings (up to the
updatedAt ordering), and everything else is dropped. -/
theorem C9_load_robustness :
    (∀ raw : JValue, (∀ items : List JValue, raw ≠ JValue.arr items) →
        listProfiles raw = [])
    ∧ (∀ items : List JValue,
        (listProfiles (JValue.arr items)).Perm (items.filterMap parseProfile))
    ∧ (∀ fields : List (String × JValue),
        (parseProfile (JValue.obj fields)).isSome = true
          ↔ (getStrField fields "id" ≠ "" ∧ getStrField fields "name" ≠ ""
             ∧ getStrField fields "localPath" ≠ "" ∧ getStrField fields "remotePath" ≠ ""
             ∧ getStrField fields "workspaceFolder" ≠ "" ∧ getStrField fields "updatedAt" ≠ ""))
    ∧ (∀ v : JValue, (∀ fields : List (String × JValue), v ≠ JValue.obj fields) →
        parseProfile v = none) := by
  refine ⟨?_, ?_, ?_, ?_⟩
  · intro raw hraw
    cases raw with
    | arr items => exact absurd rfl (hraw items)
    | null => rfl
    | bool b => rfl
    | num n => rfl
    | str s => rfl
    | obj f => rfl
  · intro items
    unfold listProfiles sortByUpdatedAtDesc
    exact List.perm_insertionSort _ _
  · intro fields
    unfold parseProfile
    dsimp only
    by_cases hcond : (getStrField fields "id" == "" || getStrField fields "name" == ""
        || getStrField fields "localPath" == "" || getStrField fields "remotePath" == ""
        || getStrField fields "workspaceFolder" == "" || getStrField fields "updatedAt" == "") = true
    · rw [if_pos hcond]
      simp only [Bool.or_eq_true, beq_iff_eq] at hcond
      simp only [Option.isSome_none, Bool.false_eq_true, false_iff]
      tauto
    · rw [if_neg hcond]
      simp only [Bool.or_eq_true, beq_iff_eq, not_or] at hcond
      simp only [Option.isSome_some, true_iff]
      tauto
  · intro v hv
    cases v with
    | obj f => exact absurd rfl (hv f)
    | null => rfl
    | bool b => rfl
    | num n => rfl
    | str s => rfl
    | arr items => rfl

/-- Witness for C9 (amended): a corrupt non-array store loads as the
empty list; a record with all six required fields non-empty parses. -/
theorem C9_load_robustness_witness :
    listProfiles (JValue.str "corrupt") = []
    ∧ (parseProfile (JValue.obj [("id", JValue.str "i"), ("name", JValue.str "n"),
        ("localPath", JValue.str "/a"), ("remotePath", JValue.str "h:/b"),
        ("workspaceFolder", JValue.str "/w"),
        ("updatedAt", JValue.str "t")])).isSome = true :=
  ⟨(C9_load_robustness).1 (JValue.str "corrupt") (fun items h => by cases h),
   ((C9_load_robustness).2.2.1 _).mpr
     ⟨by decide, by decide, by decide, by decide, by decide, by decide⟩⟩

end Mutagen
